import Mathlib

/-!
Verification development for `klippy/extras/virtual_sdcard.py`
(photocromax/klipper fork: virtual sdcard streaming with parts/objects
handling).

The Python module is shallowly embedded below:
* strings are `List Char`; the Python helpers `str.split`, `str.replace`,
  `in` (substring test), `str.startswith`, `file.readline` are modelled by
  executable Lean functions with the same semantics;
* the mutable instance state of class `VirtualSD` is the structure
  `SDState`; file handles are `FileH` (content plus cursor);
* the external collaborators are parameters: the gcode dispatch backend
  (`self.gcode.run_script`) is an arbitrary function
  `Dispatch : SDState → Str → DOutcome × SDState` (it may mutate the
  state, which is how `set_file_position` jumps and re-entrant
  `do_pause` calls are modelled), the gcode mutex probe is a
  `Nat → Bool` schedule, and `json.loads` is a partial parse oracle;
* the cooperative work loop `work_handler` is a fuel-indexed recursion
  over the single-iteration step function `loopIter`;
* OS-level `file.seek(pos)` fails exactly on a negative target, matching
  the `OSError` raised by CPython for negative seek positions on regular
  files; any such failure lands in the bare `except:` branches of the
  source.
-/

set_option maxRecDepth 4000

namespace VirtualSD

/-- Python strings are modelled as lists of characters. -/
abbrev Str := List Char

/-- Coercion from Lean string literals to the model's string type. -/
def str (s : String) : Str := s.data

/-- Python `pat in s` substring test (`"" in s` is `True`). -/
def containsSub (pat : Str) : Str → Bool
  | [] => pat.isEmpty
  | c :: rest => pat.isPrefixOf (c :: rest) || containsSub pat rest

/-- Fuel-bounded worker for `replaceAll`; the fuel is an upper bound on the
number of characters still to be consumed, so `s.length` always suffices. -/
def replaceAllAux (pat repl : Str) : Nat → Str → Str
  | _, [] => []
  | 0, s => s
  | fuel + 1, c :: rest =>
    if pat ≠ [] ∧ pat.isPrefixOf (c :: rest) then
      repl ++ replaceAllAux pat repl fuel (List.drop (pat.length - 1) rest)
    else
      c :: replaceAllAux pat repl fuel rest

/-- Python `s.replace(pat, repl)`: replace all non-overlapping occurrences
left to right (for a non-empty pattern, which is the only use in the
source). -/
def replaceAll (pat repl s : Str) : Str := replaceAllAux pat repl s.length s

/-- Python `s.replace("\r", "").replace("\n", "")`, the newline stripping
applied to part names and metadata payloads in `_load_file`. -/
def dropCRLF (s : Str) : Str :=
  (s.filter (fun c => c ≠ '\r')).filter (fun c => c ≠ '\n')

/-- Python `data.split('\n')`: the result is always non-empty, empty pieces
are kept, and a trailing newline yields a final empty piece. -/
def splitNl : Str → List Str
  | [] => [[]]
  | c :: rest =>
    if c = '\n' then [] :: splitNl rest
    else
      match splitNl rest with
      | [] => [[c]]
      | l :: ls => (c :: l) :: ls

/-- Splits off the first line of a string, keeping its terminating newline,
as Python's `file.readline` does. -/
def takeLine : Str → Str × Str
  | [] => ([], [])
  | c :: rest =>
    if c = '\n' then ([c], rest)
    else
      let p := takeLine rest
      (c :: p.1, p.2)

/-- Fuel-bounded worker for `readLines`; each emitted line consumes at
least one character, so `s.length` fuel always suffices. -/
def readLinesAux : Nat → Str → List Str
  | _, [] => []
  | 0, s => [s]
  | fuel + 1, s =>
    let p := takeLine s
    p.1 :: readLinesAux fuel p.2

/-- The sequence of lines produced by Python's `file.readline` loop in
`_load_file`: terminators are kept, an unterminated final line is returned
as-is, and an empty file gives no lines. -/
def readLines (s : Str) : List Str := readLinesAux s.length s

/-- Python `s.lower()` (ASCII case folding suffices for filenames here). -/
def toLowerStr (s : Str) : Str := s.map Char.toLower

/-- Python `s.isdigit()` for ASCII digit strings: false on the empty
string, true iff every character is a decimal digit. -/
def isDigitsAll (s : Str) : Bool := !s.isEmpty && s.all Char.isDigit

/-- Value of a decimal digit string, Python `int(s)` for digit-only `s`. -/
def digitsVal (s : Str) : Nat :=
  s.foldl (fun a c => 10 * a + (c.toNat - '0'.toNat)) 0

/-- Decimal rendering of a natural number, Python `str(n)`. -/
def natToStr (n : Nat) : Str := Nat.toDigits 10 n

/-- Python `str(x)` for an optional part name: `str(None)` is `"None"`,
which matters in the stop-marker comparison of `work_handler`. -/
def pyShow : Option Str → Str
  | none => str "None"
  | some p => p

/-- Lexicographic comparison on code points, Python string `<=`. -/
def lexLe : Str → Str → Bool
  | [], _ => true
  | _ :: _, [] => false
  | a :: as, b :: bs => if a = b then lexLe as bs else decide (a < b)

/-- Insertion step of the sort used to model Python `list.sort()`. -/
def insortStr (x : Str) : List Str → List Str
  | [] => [x]
  | y :: ys => if lexLe x y then x :: y :: ys else y :: insortStr x ys

/-- Python `self.parts.sort()` (stable sort on code points). -/
def sortStr (l : List Str) : List Str := l.foldr insortStr []

/-- Python `list.index(x)` for a list that is known to contain `x`. -/
def indexOf (x : Str) : List Str → Nat
  | [] => 0
  | y :: ys => if y = x then 0 else indexOf x ys + 1

/-- The element returned by Python `list.pop()` (the last element; the
empty-list default is never reached because the loop only pops non-empty
buffers). -/
def lastLine : List Str → Str
  | [] => []
  | [x] => x
  | _ :: y :: rest => lastLine (y :: rest)

/-- Sum of `len(line) + 1` over a list of lines: the number of file bytes a
line and its stripped newline delimiter occupy. -/
def sumLen1 (l : List Str) : Int :=
  (l.map (fun x => (x.length : Int) + 1)).sum

/-- One parsed `"; object:"` metadata record (`self.parts_info` element):
the `"id"` field consulted by the scanner match loop, and the `"P"` display
index stamped onto the record once matched.  The remaining JSON payload is
irrelevant to the module's control flow and not modelled. -/
structure PInfo where
  id : Str
  pdisp : Option Str
deriving DecidableEq

/-- An open file handle: immutable content plus read cursor.  `seek` only
moves the cursor; `read` returns at most a block from the cursor on. -/
structure FileH where
  content : Str
  pos : Nat
deriving DecidableEq

/-- The mutable instance state of `VirtualSD`:
`current_file`, `file_position`, `file_size`, `next_file_position`,
`must_pause_work`, `cmd_from_sd`, `work_timer` (modelled by whether a
timer is registered), `parts`, `parts_info`, `suppressed_parts`,
`current_part` and the `sort_part_names` config flag.  Positions are
integers because `set_file_position` accepts arbitrary values from
dispatched commands. -/
structure SDState where
  curFile : Option FileH
  filePos : Int
  fileSize : Int
  nextFilePos : Int
  mustPause : Bool
  cmdFromSd : Bool
  workTimer : Bool
  parts : List Str
  partsInfo : List PInfo
  suppressed : List Str
  currentPart : Option Str
  sortParts : Bool
deriving DecidableEq

/-- A fresh `VirtualSD` instance right after `__init__`. -/
def initState : SDState :=
  ⟨none, 0, 0, 0, false, false, false, [], [], [], none, false⟩

/-- Outcome of one `self.gcode.run_script(line)` call: success, a
`self.gcode.error` (user-facing, recorded as the terminal error message),
or any other exception (logged, loop aborted without a message). -/
inductive DOutcome
  | ok
  | gcodeError (msg : Str)
  | otherFailure
deriving DecidableEq

/-- The dispatch backend: executes one line and may mutate the instance
state re-entrantly (this is how `set_file_position` jumps, `do_pause`
from within a dispatched command, and `SUPPRESS_PART` during a print are
reached from inside `run_script`). -/
def Dispatch : Type := SDState → Str → DOutcome × SDState

/-- Errors raised to the gcode caller (`raise gcmd.error(...)`). -/
inductive GErr
  | busy
  | badParam
  | openFail
deriving DecidableEq

/-- The `print_stats` notification the work loop publishes on exit. -/
inductive StatsNote
  | error (msg : Str)
  | paused
  | complete
deriving DecidableEq

/-- The state mutation performed by `do_pause`: if a work timer is active,
set `must_pause_work`; otherwise do nothing.  The busy-wait that follows
in the source only reads state and yields (its exit condition is
`pauseWaitCond`), so this transformer is the complete write effect of the
call. -/
def doPauseT (s : SDState) : SDState :=
  if s.workTimer then { s with mustPause := true } else s

/-- The continuation condition of the `do_pause` busy-wait:
`while self.work_timer is not None and not self.cmd_from_sd`.  While this
is `true` the caller keeps yielding; `do_pause` returns as soon as it is
`false`. -/
def pauseWaitCond (s : SDState) : Bool := s.workTimer && !s.cmdFromSd

/-- `do_resume`: raise "SD busy" if a work timer is already registered,
otherwise clear the pause flag and register the work timer. -/
def do_resume (s : SDState) : SDState × Option GErr :=
  if s.workTimer then (s, some GErr.busy)
  else ({ s with mustPause := false, workTimer := true }, none)

/-- `_reset_file`: pause and close any open file, zero position and size,
clear `current_part`, `parts` and `suppressed_parts` (note that the source
does not touch `self.parts_info` here), and notify `print_stats.reset()`
(fire-and-forget, not modelled). -/
def resetFile (s : SDState) : SDState :=
  let s1 :=
    match s.curFile with
    | some _ => { doPauseT s with curFile := none }
    | none => s
  { s1 with filePos := 0, fileSize := 0,
            currentPart := none, parts := [], suppressed := [] }

/-- `cmd_M26`: set SD position.  Raises "SD busy" while a work timer is
active; `gcmd.get_int('S', minval=0)` rejects a negative argument;
otherwise only `self.file_position` is overwritten. -/
def cmd_M26 (pos : Int) (s : SDState) : SDState × Option GErr :=
  if s.workTimer then (s, some GErr.busy)
  else if pos < 0 then (s, some GErr.badParam)
  else ({ s with filePos := pos }, none)

/-- The readline scan of `_load_file` over the freshly opened file: a line
starting with the announce marker appends a new part name (first
occurrence wins), a line starting with the metadata marker is parsed by
`json.loads` (the oracle `jp`; a failed parse raises, which the source
propagates as an open failure).  The returned flag is `false` when the
scan raised; the accumulated lists are returned in either case because the
source appends to `self.parts` / `self.parts_info` in place as it scans. -/
def scanParts (jp : Str → Option PInfo) :
    List Str → List Str → List PInfo → (List Str × List PInfo) × Bool
  | [], parts, infos => ((parts, infos), true)
  | line :: rest, parts, infos =>
    if (str "; printing object ").isPrefixOf line then
      let part := dropCRLF (replaceAll (str "; printing object ") [] line)
      scanParts jp rest (if part ∈ parts then parts else parts ++ [part]) infos
    else if (str "; object:").isPrefixOf line then
      match jp (dropCRLF (replaceAll (str "; object:") [] line)) with
      | some info => scanParts jp rest parts (infos ++ [info])
      | none => ((parts, infos), false)
    else scanParts jp rest parts infos

/-- The inner loop of the metadata match pass: stamp the first record
whose `"id"` equals the part name with the derived display index. -/
def stampFirst (pid : Str) (pval : Str) : List PInfo → List PInfo
  | [] => []
  | i :: is =>
    if i.id = pid then { i with pdisp := some pval } :: is
    else i :: stampFirst pid pval is

/-- The full match pass of `_load_file`: for each part in order, stamp the
first matching metadata record with `"P" + str(parts.index(part) + 1)`. -/
def stampAll (parts : List Str) (infos : List PInfo) : List PInfo :=
  parts.foldl
    (fun acc part => stampFirst part (str "P" ++ natToStr (indexOf part parts + 1)) acc)
    infos

/-- Filename resolution inside `_load_file`: exact match against the file
list first, then the case-insensitive dictionary (`files_by_lower`, whose
duplicate lowered keys are last-wins); `None` models the `KeyError` that
the surrounding `try` converts into "Unable to open file". -/
def resolveName (fs : List (Str × Str)) (filename : Str) : Option Str :=
  if filename ∈ fs.map (fun f => f.1) then some filename
  else (fs.reverse.find? (fun f => toLowerStr f.1 = toLowerStr filename)).map (fun f => f.1)

/-- The scan-and-install step of `_load_file` on an opened file: scan for
parts and metadata, and on success sort (if configured), stamp display
indices, rewind and install the session.  On a scan failure the in-place
appends performed so far survive on the instance and the open fails. -/
def loadScan (jp : Str → Option PInfo) (content : Str) (s : SDState) :
    SDState × Option GErr :=
  match scanParts jp (readLines content) s.parts s.partsInfo with
  | ((parts', infos'), true) =>
    let sorted := if s.sortParts then sortStr parts' else parts'
    let stamped := stampAll sorted infos'
    ({ s with parts := sorted, partsInfo := stamped,
              curFile := some ⟨content, 0⟩,
              filePos := 0, fileSize := (content.length : Int) }, none)
  | ((parts', infos'), false) =>
    ({ s with parts := parts', partsInfo := infos' }, some GErr.openFail)

def loadFile (jp : Str → Option PInfo) (fs : List (Str × Str))
    (filename : Str) (s : SDState) : SDState × Option GErr :=
  match resolveName fs filename with
  | none => (s, some GErr.openFail)
  | some fname =>
    match (fs.find? (fun f => f.1 = fname)).map (fun f => f.2) with
    | none => (s, some GErr.openFail)
    | some content => loadScan jp content s

/-- `cmd_SDCARD_PRINT_FILE`: reject while streaming, otherwise reset,
strip one leading `/` from the filename, load, and resume. -/
def cmd_SDCARD_PRINT_FILE (jp : Str → Option PInfo) (fs : List (Str × Str))
    (filename : Str) (s : SDState) : SDState × Option GErr :=
  if s.workTimer then (s, some GErr.busy)
  else
    let s1 := resetFile s
    let fn :=
      match filename with
      | '/' :: rest => rest
      | _ => filename
    match loadFile jp fs fn s1 with
    | (s2, some e) => (s2, some e)
    | (s2, none) => do_resume s2

/-- The reference resolution of `cmd_SUPPRESS_PART`: a reference whose
first character uppercases to `P` and whose remainder is a non-empty digit
string is treated as a 1-based display index with priority; an in-range
index resolves to that part, anything else falls back to the reference
text itself (to be matched exactly against part names). -/
def resolveRef (parts : List Str) (part : Str) : Str :=
  match part with
  | [] => part
  | c :: rest =>
    if c.toUpper = 'P' ∧ isDigitsAll rest = true then
      let p : Int := (digitsVal rest : Int) - 1
      if 0 ≤ p ∧ p < (parts.length : Int) then parts.getD p.toNat [] else part
    else part

/-- The user-visible reply of `cmd_SUPPRESS_PART` (the display index of
the part is 1-based). -/
inductive SupResp
  | fileNotLoaded
  | notPrinting
  | added (idx : Nat) (part : Str)
  | already (idx : Nat) (part : Str)
  | notFound (part : Str)
deriving DecidableEq

/-- `cmd_SUPPRESS_PART`: with no file loaded, reply only; with the PART
parameter omitted, fall back to the current part if printing one; then
resolve the reference (`resolveRef`) and either append it to the
suppression list, report it as already suppressed, or report it as not
found — the state is mutated only in the append case. -/
def cmdSuppress (ref : Option Str) (s : SDState) : SDState × SupResp :=
  match s.curFile with
  | none => (s, SupResp.fileNotLoaded)
  | some _ =>
    let part0 : Option Str :=
      match ref with
      | some r => some r
      | none => s.currentPart
    match part0 with
    | none => (s, SupResp.notPrinting)
    | some pr =>
      let part := resolveRef s.parts pr
      if part ∈ s.parts then
        if part ∈ s.suppressed then
          (s, SupResp.already (indexOf part s.parts + 1) part)
        else
          ({ s with suppressed := s.suppressed ++ [part] },
           SupResp.added (indexOf part s.parts + 1) part)
      else (s, SupResp.notFound part)

/-- The status snapshot of `get_status` (the float `progress` field is
excluded from the model; it is derived from the two byte counters). -/
structure Status where
  filePath : Option Str
  isActive : Bool
  filePosition : Int
  fileSize : Int
deriving DecidableEq

/-- `get_status`. -/
def get_status (s : SDState) : Status :=
  ⟨(s.curFile).map (fun f => f.content), s.workTimer, s.filePos, s.fileSize⟩

/-- The current-part update of one loop iteration (source lines 379-382):
an announce marker anywhere in the line sets the current part to the line
with all marker occurrences removed; otherwise a stop marker matching
`str(current_part)` clears it. -/
def updatePart (cur : Option Str) (line : Str) : Option Str :=
  if containsSub (str "; printing object ") line then
    some (replaceAll (str "; printing object ") [] line)
  else if containsSub (str "; stop printing object " ++ pyShow cur) line then none
  else cur

/-- The suppression gate (source line 383): dispatch happens iff the
current part (possibly `None`) is not in `suppressed_parts`.  `None` is
never in the list, which holds only part-name strings. -/
def gateOpen (cur : Option Str) (sup : List Str) : Bool :=
  match cur with
  | none => true
  | some p => decide (p ∉ sup)

/-- The state in which `run_script` is entered for a line:
`cmd_from_sd` set, the expected next position published, and the
current-part cursor updated. -/
def dispatchCallState (s : SDState) (line : Str) : SDState :=
  { s with cmdFromSd := true,
           nextFilePos := s.filePos + (line.length : Int) + 1,
           currentPart := updatePart s.currentPart line }

/-- Result of one iteration of the `while not self.must_pause_work` loop:
continue with new buffers (recording the consumed and dispatched line, if
any), break out of the loop (carrying `error_message` and the line whose
dispatch raised, if any), or return `NEVER` directly from the mid-loop
seek failure (source lines 396-402), which bypasses the loop epilogue. -/
inductive IterOut
  | next (s : SDState) (carry : Str) (lines : List Str)
         (took : Option Str) (sent : Option Str)
  | halt (s : SDState) (err : Option Str) (sent : Option Str)
  | seekAbort (s : SDState)
deriving DecidableEq

/-- The tail of a dispatch iteration (source lines 393-404): clear
`cmd_from_sd`, advance `file_position` to `next_file_position`, and if a
dispatched command moved `next_file_position` away from the expected
value, seek there and drop the line buffer and carried partial input.  A
failing seek (no open handle, or a negative target) is the `return NEVER`
path that also clears the work timer. -/
def afterDispatch (s4 : SDState) (expNext : Int) (carry : Str)
    (newLines : List Str) (took sent : Option Str) : IterOut :=
  if s4.nextFilePos = expNext then
    IterOut.next { s4 with cmdFromSd := false, filePos := s4.nextFilePos }
      carry newLines took sent
  else
    match s4.curFile with
    | none =>
      IterOut.seekAbort
        { s4 with cmdFromSd := false, filePos := s4.nextFilePos,
                  workTimer := false }
    | some f =>
      if s4.nextFilePos < 0 then
        IterOut.seekAbort
          { s4 with cmdFromSd := false, filePos := s4.nextFilePos,
                    workTimer := false }
      else
        IterOut.next
          { s4 with cmdFromSd := false, filePos := s4.nextFilePos,
                    curFile := some ⟨f.content, s4.nextFilePos.toNat⟩ }
          [] [] took sent

/-- One iteration of the work loop (source lines 348-404).  `busy` is the
value of `gcode_mutex.test()` for this iteration.  With an empty buffer a
block of up to 8192 bytes is read (an empty read closes the file and ends
the print; a read on a closed handle raises and breaks the loop); the
block is split on newlines, the first piece is prepended with the carried
partial input, the last piece becomes the new carry, and the rest is
reversed for FIFO popping.  Otherwise the mutex may force a yield, or the
last buffered line is popped and dispatched through the parts gate. -/
def loopIter (d : Dispatch) (busy : Bool) (s : SDState) (carry : Str)
    (lines : List Str) : IterOut :=
  if s.mustPause then IterOut.halt s none none
  else
    match lines with
    | [] =>
      match s.curFile with
      | none => IterOut.halt s none none
      | some f =>
        if (f.content.drop f.pos).take 8192 = [] then
          IterOut.halt { s with curFile := none } none none
        else
          match splitNl ((f.content.drop f.pos).take 8192) with
          | [] => IterOut.halt s none none
          | l :: ls =>
            IterOut.next
              { s with curFile := some ⟨f.content,
                  f.pos + ((f.content.drop f.pos).take 8192).length⟩ }
              (lastLine ((carry ++ l) :: ls))
              (List.reverse ((carry ++ l) :: ls).dropLast) none none
    | l0 :: rest0 =>
      if busy then IterOut.next s carry (l0 :: rest0) none none
      else
        if gateOpen (updatePart s.currentPart (lastLine (l0 :: rest0)))
            s.suppressed then
          match d (dispatchCallState s (lastLine (l0 :: rest0)))
              (lastLine (l0 :: rest0)) with
          | (DOutcome.gcodeError m, s4) =>
            IterOut.halt s4 (some m) (some (lastLine (l0 :: rest0)))
          | (DOutcome.otherFailure, s4) =>
            IterOut.halt s4 none (some (lastLine (l0 :: rest0)))
          | (DOutcome.ok, s4) =>
            afterDispatch s4
              (s.filePos + ((lastLine (l0 :: rest0)).length : Int) + 1)
              carry ((l0 :: rest0).dropLast)
              (some (lastLine (l0 :: rest0))) (some (lastLine (l0 :: rest0)))
        else
          afterDispatch (dispatchCallState s (lastLine (l0 :: rest0)))
            (s.filePos + ((lastLine (l0 :: rest0)).length : Int) + 1)
            carry ((l0 :: rest0).dropLast) (some (lastLine (l0 :: rest0))) none

/-- How a run of the loop body ended. -/
inductive LoopEnding
  | normal (err : Option Str)
  | seekAbort
  | fuelOut
deriving DecidableEq

/-- Accumulated result of running the loop body: final state, consumed
lines in order, lines handed to `run_script` in order, and the ending. -/
structure LoopOut where
  s : SDState
  took : List Str
  sent : List Str
  ending : LoopEnding
deriving DecidableEq

/-- The work loop driver: iterate `loopIter` until it halts, aborts or
the fuel (a bound on the number of iterations, a model artifact of the
shallow embedding) runs out.  `busyAt` gives the mutex probe per
iteration. -/
def whLoopCore (d : Dispatch) (busyAt : Nat → Bool) :
    Nat → SDState → Str → List Str → LoopOut
  | 0, s, _, _ => ⟨s, [], [], LoopEnding.fuelOut⟩
  | fuel + 1, s, carry, lines =>
    match loopIter d (busyAt fuel) s carry lines with
    | IterOut.halt s' err o => ⟨s', [], o.toList, LoopEnding.normal err⟩
    | IterOut.seekAbort s' => ⟨s', [], [], LoopEnding.seekAbort⟩
    | IterOut.next s' c' l' took sent =>
      let r := whLoopCore d busyAt fuel s' c' l'
      ⟨r.s, took.toList ++ r.took, sent.toList ++ r.sent, r.ending⟩

/-- How `work_handler` as a whole ended. -/
inductive WHEnding
  | initSeekFail
  | ran (e : LoopEnding)
deriving DecidableEq

/-- Result of one `work_handler` invocation, with the single `print_stats`
notification published on exit (if any). -/
structure WHOut where
  s : SDState
  took : List Str
  sent : List Str
  ending : WHEnding
  note : Option StatsNote
deriving DecidableEq

/-- The loop epilogue (source lines 405-414): clear the work timer and the
stream-origin marker, then notify `print_stats` with the error message if
one was recorded, else a pause if the file is still open, else
completion.  The mid-loop seek abort returned `NEVER` before reaching
this code, so it publishes no notification (it cleared the timer itself,
and `cmd_from_sd` was already cleared at line 393). -/
def finishLoop (r : LoopOut) : WHOut :=
  match r.ending with
  | LoopEnding.normal err =>
    let note :=
      match err with
      | some m => some (StatsNote.error m)
      | none =>
        if (r.s.curFile).isSome then some StatsNote.paused
        else some StatsNote.complete
    ⟨{ r.s with workTimer := false, cmdFromSd := false },
     r.took, r.sent, WHEnding.ran r.ending, note⟩
  | LoopEnding.seekAbort => ⟨r.s, r.took, r.sent, WHEnding.ran r.ending, none⟩
  | LoopEnding.fuelOut => ⟨r.s, r.took, r.sent, WHEnding.ran r.ending, none⟩

/-- `work_handler` (source lines 334-414): seek the open file to the
stored position (a missing handle or a negative position raises, which
clears the timer and returns with no notification), notify
`print_stats.note_start()` (fire-and-forget, not modelled), run the loop
with empty buffers, then run the epilogue. -/
def workHandler (d : Dispatch) (busyAt : Nat → Bool) (fuel : Nat)
    (s : SDState) : WHOut :=
  match s.curFile with
  | none => ⟨{ s with workTimer := false }, [], [], WHEnding.initSeekFail, none⟩
  | some f =>
    if s.filePos < 0 then
      ⟨{ s with workTimer := false }, [], [], WHEnding.initSeekFail, none⟩
    else
      let s1 := { s with curFile := some ⟨f.content, s.filePos.toNat⟩ }
      finishLoop (whLoopCore d busyAt fuel s1 [] [])

/-- A dispatch backend on which every line succeeds with no side effect
(models `run_script` executing plain motion commands and comments). -/
def okDispatch : Dispatch := fun s _ => (DOutcome.ok, s)

/-- A gcode mutex that never reports pending external traffic. -/
def quietBusy : Nat → Bool := fun _ => false

/-- A dispatch oracle never publishing a position jump: the state it
returns always has `next_file_position` unchanged. -/
def NoJump (d : Dispatch) : Prop :=
  ∀ s l, ((d s l).2).nextFilePos = s.nextFilePos

/-- A dispatch oracle on which no line ever raises. -/
def NoFail (d : Dispatch) : Prop := ∀ s l, (d s l).1 = DOutcome.ok

/-- A dispatch oracle never mutating the suppression list. -/
def PreservesSup (d : Dispatch) : Prop :=
  ∀ s l, ((d s l).2).suppressed = s.suppressed

/-- The spec's Scenario A file. -/
def scenarioAContent : Str :=
  str "; printing object A\nG1 X0\n; stop printing object A\nG1 X1\n"

/-- Scenario A after `SDCARD_PRINT_FILE` name resolution, scan and open. -/
def scenarioALoaded : SDState :=
  (loadFile (fun _ => none) [(str "a.gcode", scenarioAContent)]
    (str "a.gcode") initState).1

/-- Scenario A after `SUPPRESS_PART PART=A`. -/
def scenarioASup : SDState := (cmdSuppress (some (str "A")) scenarioALoaded).1

/-- Scenario A after `do_resume` registered the work timer. -/
def scenarioAResume : SDState := (do_resume scenarioASup).1

/-- The complete Scenario A work-loop run. -/
def scenarioARun : WHOut := workHandler okDispatch quietBusy 32 scenarioAResume

/-- A metadata parse oracle for the corrupt-metadata scenario: the payload
`G` parses to a record with id `A`, everything else (such as the payload
`BAD`) raises, as `json.loads` does on malformed input. -/
def badJson : Str → Option PInfo :=
  fun x => if x = str "G" then some ⟨str "A", none⟩ else none

/-- A filesystem whose single file announces part `A`, carries one valid
metadata line and then one malformed metadata line. -/
def c2Fs : List (Str × Str) :=
  [(str "a.gcode", str "; printing object A\n; object:G\n; object:BAD\n")]

/-- The failing open of the corrupt-metadata scenario. -/
def c2Run : SDState × Option GErr :=
  loadFile badJson c2Fs (str "a.gcode") initState

/-- A dispatch backend on which the command `G1 X0` performs
`set_file_position(-1)` (an in-stream jump to a negative offset, on which
the subsequent `file.seek` raises `OSError`). -/
def jumpNegDispatch : Dispatch :=
  fun s l =>
    if l = str "G1 X0" then (DOutcome.ok, { s with nextFilePos := -1 })
    else (DOutcome.ok, s)

/-- A loaded two-line session about to stream for the negative-jump run. -/
def scenarioNegState : SDState :=
  { initState with curFile := some ⟨str "G1 X0\nG1 X1\n", 0⟩,
                   fileSize := 12, workTimer := true }

/-- The negative-jump work-loop run. -/
def scenarioNegRun : WHOut :=
  workHandler jumpNegDispatch quietBusy 16 scenarioNegState

/-- A loaded session over a file whose final line `M114` has no
terminating newline. -/
def c10State : SDState :=
  { initState with curFile := some ⟨str "G1 X0\nM114", 0⟩,
                   fileSize := 10, workTimer := true }

/-- The unterminated-final-line work-loop run. -/
def c10Run : WHOut := workHandler okDispatch quietBusy 16 c10State

/-- A state with stale metadata records, as left behind by a previous
print (only `_load_file` ever writes `parts_info`, and `_reset_file` does
not clear it). -/
def c4State : SDState :=
  { initState with partsInfo := [⟨str "A", some (str "P1")⟩] }

/-- A loaded session with two discovered parts, the first suppressed. -/
def twoPartState : SDState :=
  { initState with curFile := some ⟨[], 0⟩,
                   parts := [str "A", str "B"],
                   suppressed := [str "A"] }

/-- The per-iteration invariant of the work loop under a jump-free,
failure-free, suppression-preserving backend, relative to the iteration's
start state `s`: a continuing iteration advances `file_position` by
exactly `len(line) + 1` for the consumed line (or not at all when none
was consumed), preserves the suppression list, and dispatches every
consumed line when nothing is suppressed; a loop exit preserves
`file_position` and records no error; the mid-loop seek abort is
unreachable. -/
def iterInvP (s : SDState) : IterOut → Prop
  | IterOut.next s' _ _ took sent =>
    s'.filePos = s.filePos + sumLen1 took.toList ∧
    s'.suppressed = s.suppressed ∧ (s.suppressed = [] → sent = took)
  | IterOut.halt s' _ o =>
    s'.filePos = s.filePos ∧ s'.suppressed = s.suppressed ∧ o = none
  | IterOut.seekAbort _ => False

/-- On the mid-loop seek-abort exit both the work timer and the
stream-origin marker are already clear (the timer is cleared by the
`return NEVER` path itself, and `cmd_from_sd` was cleared at source line
393 before the jump check); other iteration results are unconstrained. -/
def seekAbortFlagsP : IterOut → Prop
  | IterOut.seekAbort s' => s'.workTimer = false ∧ s'.cmdFromSd = false
  | _ => True

/-- A dispatch backend on which every line performs
`set_file_position(10)` (Scenario B's in-stream jump). -/
def jump10 : Dispatch := fun s _ => (DOutcome.ok, { s with nextFilePos := 10 })

/-- A session streaming at byte 40 of a 100-byte file (Scenario B). -/
def c3Start : SDState :=
  { initState with curFile := some ⟨str "0123456789abcdef", 40⟩,
                   filePos := 40, fileSize := 100, workTimer := true }

/-- A dispatch backend whose every line calls `do_pause` re-entrantly
from within `run_script` while `cmd_from_sd` is set: the busy-wait exits
immediately, and the net state effect is the pause flag. -/
def pauseDispatch : Dispatch :=
  fun s _ => (DOutcome.ok, doPauseT s)

/-- A plain two-line session for the position round-trip witness. -/
def c8State : SDState :=
  { initState with curFile := some ⟨str "A\nBB\n", 0⟩,
                   fileSize := 5, workTimer := true }

end VirtualSD

namespace VirtualSD

/-- C1 counterexample: in Scenario A with part `A` suppressed, the
dispatch backend does not receive only `G1 X1`; the claim's expected
dispatch sequence is wrong on the code. -/
theorem c1_counterexample : scenarioARun.sent ≠ [str "G1 X1"] := by decide

/-- C1 (amended): in Scenario A with part `A` suppressed the backend
receives exactly the stop-marker line and `G1 X1`; the announce line and
`G1 X0` are skipped.  The stop marker clears `current_part` before the
suppression test (source lines 381-383), so the stop-marker line itself
is dispatched.  All four lines are consumed, in file order. -/
theorem c1_dispatch_sequence :
    scenarioARun.sent = [str "; stop printing object A", str "G1 X1"] ∧
    scenarioARun.took =
      [str "; printing object A", str "G1 X0",
       str "; stop printing object A", str "G1 X1"] := by decide

/-- C2 counterexample: a malformed `"; object:"` payload aborts the open
with an error, but the parts discovered and the metadata records parsed
before the failure are retained on the instance (the source appends to
`self.parts` / `self.parts_info` in place inside the `try`). -/
theorem c2_counterexample :
    (c2Run.2).isSome = true ∧ c2Run.1.parts ≠ [] ∧ c2Run.1.partsInfo ≠ [] := by
  decide

/-- C2 (amended): every failing `_load_file` — unresolvable name or a
scan failure such as corrupt metadata — reports an open error and records
no session: `current_file`, `file_position`, `file_size`, the suppression
list and the current part are all left exactly as they were.  Partially
scanned `parts` / `parts_info` entries, however, may be retained. -/
theorem c2_failed_open_no_session :
    ∀ (jp : Str → Option PInfo) (fs : List (Str × Str)) (fn : Str)
      (s s' : SDState) (e : GErr),
      loadFile jp fs fn s = (s', some e) →
      s'.curFile = s.curFile ∧ s'.filePos = s.filePos ∧
      s'.fileSize = s.fileSize ∧ s'.suppressed = s.suppressed ∧
      s'.currentPart = s.currentPart ∧ s'.workTimer = s.workTimer := by
  intro jp fs fn s s' e h
  unfold loadFile at h
  cases hres : resolveName fs fn with
  | none =>
    rw [hres] at h
    simp only [Prod.mk.injEq] at h
    simp [← h.1]
  | some fname =>
    simp only [hres] at h
    cases hc : (fs.find? (fun f => f.1 = fname)).map (fun f => f.2) with
    | none =>
      simp only [hc] at h
      simp only [Prod.mk.injEq] at h
      simp [← h.1]
    | some content =>
      simp only [hc] at h
      unfold loadScan at h
      cases hsc : scanParts jp (readLines content) s.parts s.partsInfo with
      | mk pr okf =>
        cases pr with
        | mk parts' infos' =>
          cases okf with
          | true =>
            rw [hsc] at h
            simp at h
          | false =>
            rw [hsc] at h
            simp only [Prod.mk.injEq] at h
            simp [← h.1]

/-- C2 witness: the corrupt-metadata scenario satisfies the amended
claim's hypotheses and conclusion. -/
theorem c2_witness :
    c2Run.1.curFile = initState.curFile ∧
    c2Run.1.filePos = initState.filePos ∧
    c2Run.1.fileSize = initState.fileSize ∧
    c2Run.1.suppressed = initState.suppressed ∧
    c2Run.1.currentPart = initState.currentPart ∧
    c2Run.1.workTimer = initState.workTimer :=
  c2_failed_open_no_session badJson c2Fs (str "a.gcode") initState
    c2Run.1 GErr.openFail (by decide)

/-- C4 counterexample: `_reset_file` does not clear `self.parts_info`, so
after a reset the parts-metadata list can be non-empty, contradicting the
claim that reset leaves it empty. -/
theorem c4_counterexample : (resetFile c4State).partsInfo ≠ [] := by decide

/-- C4 (amended): `_reset_file` closes the session, zeroes position and
size, and clears the discovered-parts list, the suppression set and the
current-part cursor — but it leaves the parts-metadata (`parts_info`)
list untouched. -/
theorem c4_reset_clears :
    ∀ s : SDState,
      (resetFile s).curFile = none ∧ (resetFile s).filePos = 0 ∧
      (resetFile s).fileSize = 0 ∧ (resetFile s).parts = [] ∧
      (resetFile s).suppressed = [] ∧ (resetFile s).currentPart = none ∧
      (resetFile s).partsInfo = s.partsInfo := by
  intro s
  unfold resetFile doPauseT
  cases h : s.curFile <;> by_cases hw : s.workTimer <;> simp [h, hw]

/-- C5: while a work loop is active, `SDCARD_PRINT_FILE`, `do_resume`
(M24) and `M26` are all rejected with "SD busy" and the state is returned
unchanged; `M26` while idle, with a non-negative offset, overwrites only
the stored position. -/
theorem c5_busy_rejections :
    (∀ (jp : Str → Option PInfo) (fs : List (Str × Str)) (fn : Str)
       (s : SDState), s.workTimer = true →
       cmd_SDCARD_PRINT_FILE jp fs fn s = (s, some GErr.busy))
    ∧ (∀ s : SDState, s.workTimer = true → do_resume s = (s, some GErr.busy))
    ∧ (∀ (pos : Int) (s : SDState), s.workTimer = true →
       cmd_M26 pos s = (s, some GErr.busy))
    ∧ (∀ (pos : Int) (s : SDState), s.workTimer = false → 0 ≤ pos →
       cmd_M26 pos s = ({ s with filePos := pos }, none)) := by
  refine ⟨?_, ?_, ?_, ?_⟩
  · intro jp fs fn s h
    simp [cmd_SDCARD_PRINT_FILE, h]
  · intro s h
    simp [do_resume, h]
  · intro pos s h
    simp [cmd_M26, h]
  · intro pos s h hp
    simp [cmd_M26, h, not_lt.mpr hp]

/-- C5 witness: the busy rejections and the idle position overwrite at
concrete inputs. -/
theorem c5_witness :
    cmd_M26 5 { initState with workTimer := true }
      = ({ initState with workTimer := true }, some GErr.busy) ∧
    cmd_M26 7 initState = ({ initState with filePos := 7 }, none) ∧
    do_resume { initState with workTimer := true }
      = ({ initState with workTimer := true }, some GErr.busy) ∧
    cmd_SDCARD_PRINT_FILE (fun _ => none) [] (str "x")
        { initState with workTimer := true }
      = ({ initState with workTimer := true }, some GErr.busy) :=
  ⟨c5_busy_rejections.2.2.1 5 _ rfl,
   c5_busy_rejections.2.2.2 7 initState rfl (by decide),
   c5_busy_rejections.2.1 _ rfl,
   c5_busy_rejections.1 _ _ _ _ rfl⟩

/-- C7: suppression reference resolution.  With no session nothing is
mutated; with a session, a reference is first resolved as a 1-based
`P<n>` display index (falling back to the literal text when the pattern
does not apply or the index is out of range) and then matched exactly
against the discovered parts: unknown references report not-found with no
mutation, already-suppressed parts report idempotently with no mutation,
and a fresh part is appended to the suppression list.  `P2` over two
parts resolves to the second; `P5` over two parts stays `P5`. -/
theorem c7_suppress_resolution :
    (∀ (r : Option Str) (s : SDState), s.curFile = none →
       cmdSuppress r s = (s, SupResp.fileNotLoaded))
    ∧ (∀ (s : SDState) (f : FileH) (r : Str), s.curFile = some f →
       resolveRef s.parts r ∉ s.parts →
       cmdSuppress (some r) s = (s, SupResp.notFound (resolveRef s.parts r)))
    ∧ (∀ (s : SDState) (f : FileH) (r : Str), s.curFile = some f →
       resolveRef s.parts r ∈ s.parts → resolveRef s.parts r ∈ s.suppressed →
       cmdSuppress (some r) s =
         (s, SupResp.already (indexOf (resolveRef s.parts r) s.parts + 1)
               (resolveRef s.parts r)))
    ∧ (∀ (s : SDState) (f : FileH) (r : Str), s.curFile = some f →
       resolveRef s.parts r ∈ s.parts → resolveRef s.parts r ∉ s.suppressed →
       cmdSuppress (some r) s =
         ({ s with suppressed := s.suppressed ++ [resolveRef s.parts r] },
          SupResp.added (indexOf (resolveRef s.parts r) s.parts + 1)
            (resolveRef s.parts r)))
    ∧ (∀ a b : Str, resolveRef [a, b] (str "P2") = b)
    ∧ (∀ a b : Str, resolveRef [a, b] (str "P5") = str "P5") := by
  refine ⟨?_, ?_, ?_, ?_, ?_, ?_⟩
  · intro r s h
    simp [cmdSuppress, h]
  · intro s f r h hm
    simp [cmdSuppress, h, hm]
  · intro s f r h hm hs
    simp [cmdSuppress, h, hm, hs]
  · intro s f r h hm hs
    simp [cmdSuppress, h, hm, hs]
  · intro a b
    rfl
  · intro a b
    rfl

/-- C7 witness: the resolution behaviors at concrete inputs — no session,
not-found via out-of-range `P5`, idempotent re-suppression of `A`, and a
fresh suppression of `P2` resolving to part `B`. -/
theorem c7_witness :
    cmdSuppress (some (str "X")) initState = (initState, SupResp.fileNotLoaded) ∧
    cmdSuppress (some (str "P5")) twoPartState
      = (twoPartState, SupResp.notFound (str "P5")) ∧
    cmdSuppress (some (str "A")) twoPartState
      = (twoPartState, SupResp.already 1 (str "A")) ∧
    cmdSuppress (some (str "P2")) twoPartState
      = ({ twoPartState with suppressed := [str "A", str "B"] },
         SupResp.added 2 (str "B")) :=
  ⟨c7_suppress_resolution.1 _ initState rfl,
   c7_suppress_resolution.2.1 twoPartState ⟨[], 0⟩ (str "P5") rfl (by decide),
   c7_suppress_resolution.2.2.1 twoPartState ⟨[], 0⟩ (str "A") rfl
     (by decide) (by decide),
   c7_suppress_resolution.2.2.2.1 twoPartState ⟨[], 0⟩ (str "P2") rfl
     (by decide) (by decide)⟩

/-- Tail of a dispatch iteration when the dispatched command left the
published next position at its expected value: the stored position
advances to it and the buffers are kept. -/
theorem afterDispatch_eq (s4 : SDState) (expNext : Int) (carry : Str)
    (newLines : List Str) (took sent : Option Str)
    (h : s4.nextFilePos = expNext) :
    afterDispatch s4 expNext carry newLines took sent =
      IterOut.next { s4 with cmdFromSd := false, filePos := s4.nextFilePos }
        carry newLines took sent := by
  unfold afterDispatch
  simp [h]

/-- Tail of a dispatch iteration when the dispatched command moved the
published next position to a valid offset: the stored position becomes
the new value, the file handle is sought there, and both the line buffer
and the carried partial input are discarded. -/
theorem afterDispatch_jump (s4 : SDState) (expNext : Int) (carry : Str)
    (newLines : List Str) (took sent : Option Str) (f : FileH)
    (h : s4.nextFilePos ≠ expNext) (h0 : 0 ≤ s4.nextFilePos)
    (hf : s4.curFile = some f) :
    afterDispatch s4 expNext carry newLines took sent =
      IterOut.next
        { s4 with cmdFromSd := false, filePos := s4.nextFilePos,
                  curFile := some ⟨f.content, s4.nextFilePos.toNat⟩ }
        [] [] took sent := by
  unfold afterDispatch
  simp [h, hf, not_lt.mpr h0]

/-- A dispatch iteration whose gate is open and whose backend call
succeeds reduces to `afterDispatch` on the backend's output state. -/
theorem loopIter_dispatch_ok (d : Dispatch) (s s4 : SDState) (l0 : Str)
    (rest0 : List Str) (carry line : Str)
    (hp : s.mustPause = false)
    (hl : lastLine (l0 :: rest0) = line)
    (hg : gateOpen (updatePart s.currentPart line) s.suppressed = true)
    (hd : d (dispatchCallState s line) line = (DOutcome.ok, s4)) :
    loopIter d false s carry (l0 :: rest0) =
      afterDispatch s4 (s.filePos + (line.length : Int) + 1) carry
        ((l0 :: rest0).dropLast) (some line) (some line) := by
  unfold loopIter
  simp only [dispatchCallState, hp] at hd
  simp [hp, hl, hg, hd, dispatchCallState]

/-- A dispatch iteration whose gate is closed (the current part is
suppressed) skips the backend call and reduces to `afterDispatch` on the
pre-dispatch state. -/
theorem loopIter_dispatch_skip (d : Dispatch) (s : SDState) (l0 : Str)
    (rest0 : List Str) (carry line : Str)
    (hp : s.mustPause = false)
    (hl : lastLine (l0 :: rest0) = line)
    (hg : gateOpen (updatePart s.currentPart line) s.suppressed = false) :
    loopIter d false s carry (l0 :: rest0) =
      afterDispatch (dispatchCallState s line)
        (s.filePos + (line.length : Int) + 1) carry
        ((l0 :: rest0).dropLast) (some line) none := by
  unfold loopIter
  simp [hp, hl, hg, dispatchCallState]

/-- The suppression gate is always open while nothing is suppressed. -/
theorem gateOpen_nil (cur : Option Str) : gateOpen cur [] = true := by
  cases cur <;> simp [gateOpen]

/-- Sums of byte counts distribute over list append. -/
theorem sumLen1_append (a b : List Str) :
    sumLen1 (a ++ b) = sumLen1 a + sumLen1 b := by
  simp [sumLen1]

/-- Every iteration of the work loop satisfies `iterInvP` under a
jump-free, failure-free, suppression-preserving backend. -/
theorem loopIter_invP (d : Dispatch) (b : Bool) (s : SDState) (carry : Str)
    (lines : List Str) (hnj : NoJump d) (hnf : NoFail d)
    (hps : PreservesSup d) :
    iterInvP s (loopIter d b s carry lines) := by
  unfold loopIter
  split
  · simp [iterInvP]
  · split
    · split
      · simp [iterInvP]
      · split
        · simp [iterInvP]
        · split
          · simp [iterInvP]
          · simp [iterInvP, sumLen1]
    · rename_i l0 rest0
      split
      · simp [iterInvP, sumLen1]
      · split
        · split
          · next m s4 heq =>
            have hx := hnf (dispatchCallState s (lastLine (l0 :: rest0)))
              (lastLine (l0 :: rest0))
            rw [heq] at hx
            simp at hx
          · next s4 heq =>
            have hx := hnf (dispatchCallState s (lastLine (l0 :: rest0)))
              (lastLine (l0 :: rest0))
            rw [heq] at hx
            simp at hx
          · next s4 heq =>
            have h1 := hnj (dispatchCallState s (lastLine (l0 :: rest0)))
              (lastLine (l0 :: rest0))
            have h2 := hps (dispatchCallState s (lastLine (l0 :: rest0)))
              (lastLine (l0 :: rest0))
            rw [heq] at h1 h2
            simp only [dispatchCallState] at h1 h2
            rw [afterDispatch_eq _ _ _ _ _ _ h1]
            simp [iterInvP, sumLen1, h1, h2]
            ring
        · next hgf =>
          rw [afterDispatch_eq _ _ _ _ _ _ (by simp [dispatchCallState])]
          simp [iterInvP, sumLen1, dispatchCallState]
          constructor
          · ring
          · intro hsup
            rw [hsup] at hgf
            exact absurd (gateOpen_nil _) hgf

/-- Accumulated form of `iterInvP` over a whole run of the loop body:
under a jump-free, failure-free, suppression-preserving backend the final
position is the start position plus the byte count of the consumed lines,
the suppression list is preserved, and with nothing suppressed every
consumed line was dispatched. -/
theorem whLoopCore_inv (d : Dispatch) (busyAt : Nat → Bool)
    (hnj : NoJump d) (hnf : NoFail d) (hps : PreservesSup d) :
    ∀ (fuel : Nat) (s : SDState) (carry : Str) (lines : List Str),
      (whLoopCore d busyAt fuel s carry lines).s.filePos
          = s.filePos + sumLen1 (whLoopCore d busyAt fuel s carry lines).took
      ∧ (whLoopCore d busyAt fuel s carry lines).s.suppressed = s.suppressed
      ∧ (s.suppressed = [] →
          (whLoopCore d busyAt fuel s carry lines).sent
            = (whLoopCore d busyAt fuel s carry lines).took) := by
  intro fuel
  induction fuel with
  | zero =>
    intro s carry lines
    simp [whLoopCore, sumLen1]
  | succ n ih =>
    intro s carry lines
    have hP := loopIter_invP d (busyAt n) s carry lines hnj hnf hps
    simp only [whLoopCore]
    cases hit : loopIter d (busyAt n) s carry lines with
    | halt s' err o =>
      rw [hit] at hP
      simp only [iterInvP] at hP
      simp [hP.1, hP.2.1, hP.2.2, sumLen1]
    | seekAbort s' =>
      rw [hit] at hP
      simp [iterInvP] at hP
    | next s' c' l' took sent =>
      rw [hit] at hP
      simp only [iterInvP] at hP
      obtain ⟨h1, h2, h3⟩ := hP
      obtain ⟨ih1, ih2, ih3⟩ := ih s' c' l'
      refine ⟨?_, ?_, ?_⟩
      · simp only [ih1, h1, sumLen1_append]
        ring
      · simp [ih2, h2]
      · intro hs
        have hs' : s'.suppressed = [] := by rw [h2, hs]
        simp [ih3 hs', h3 hs]

/-- The tail of a dispatch iteration only reaches the mid-loop seek abort
with both the work timer and the stream-origin marker cleared. -/
theorem afterDispatch_flags (s4 : SDState) (expNext : Int) (carry : Str)
    (newLines : List Str) (took sent : Option Str) :
    seekAbortFlagsP (afterDispatch s4 expNext carry newLines took sent) := by
  unfold afterDispatch
  split
  · simp [seekAbortFlagsP]
  · split
    · simp [seekAbortFlagsP]
    · split
      · simp [seekAbortFlagsP]
      · simp [seekAbortFlagsP]

/-- Every iteration of the work loop only reaches the mid-loop seek abort
with both the work timer and the stream-origin marker cleared. -/
theorem loopIter_seekAbortFlags (d : Dispatch) (b : Bool) (s : SDState)
    (carry : Str) (lines : List Str) :
    seekAbortFlagsP (loopIter d b s carry lines) := by
  unfold loopIter
  split
  · simp [seekAbortFlagsP]
  · split
    · split
      · simp [seekAbortFlagsP]
      · split
        · simp [seekAbortFlagsP]
        · split
          · simp [seekAbortFlagsP]
          · simp [seekAbortFlagsP]
    · split
      · simp [seekAbortFlagsP]
      · split
        · split
          · simp [seekAbortFlagsP]
          · simp [seekAbortFlagsP]
          · exact afterDispatch_flags _ _ _ _ _ _
        · exact afterDispatch_flags _ _ _ _ _ _

/-- Whole-run form of `loopIter_seekAbortFlags`: a loop run ending in the
mid-loop seek abort leaves the work timer and the stream-origin marker
cleared. -/
theorem whLoopCore_seekAbort_flags (d : Dispatch) (busyAt : Nat → Bool) :
    ∀ (fuel : Nat) (s : SDState) (carry : Str) (lines : List Str),
      (whLoopCore d busyAt fuel s carry lines).ending = LoopEnding.seekAbort →
      (whLoopCore d busyAt fuel s carry lines).s.workTimer = false ∧
      (whLoopCore d busyAt fuel s carry lines).s.cmdFromSd = false := by
  intro fuel
  induction fuel with
  | zero =>
    intro s carry lines h
    simp [whLoopCore] at h
  | succ n ih =>
    intro s carry lines
    have hF := loopIter_seekAbortFlags d (busyAt n) s carry lines
    simp only [whLoopCore]
    cases hit : loopIter d (busyAt n) s carry lines with
    | halt s' err o =>
      intro h
      simp at h
    | seekAbort s' =>
      rw [hit] at hF
      intro _
      simpa [seekAbortFlagsP] using hF
    | next s' c' l' took sent =>
      intro h
      simp only at h
      exact ih s' c' l' h

/-- The loop epilogue: the published notification and the cleared markers
as a function of the run's ending, together with the fields it leaves
unchanged. -/
theorem finishLoop_spec (r : LoopOut) :
    (∀ m, r.ending = LoopEnding.normal (some m) →
       (finishLoop r).note = some (StatsNote.error m))
    ∧ (r.ending = LoopEnding.normal none →
       (finishLoop r).note = some (if (r.s.curFile).isSome then
         StatsNote.paused else StatsNote.complete))
    ∧ (∀ e, r.ending = LoopEnding.normal e →
       (finishLoop r).s.workTimer = false ∧ (finishLoop r).s.cmdFromSd = false)
    ∧ (r.ending = LoopEnding.seekAbort →
       (finishLoop r).note = none ∧ (finishLoop r).s = r.s)
    ∧ (finishLoop r).ending = WHEnding.ran r.ending
    ∧ (finishLoop r).sent = r.sent ∧ (finishLoop r).took = r.took
    ∧ (finishLoop r).s.filePos = r.s.filePos
    ∧ (finishLoop r).s.curFile = r.s.curFile := by
  rcases r with ⟨rs, rt, rse, ending⟩
  cases ending with
  | normal err =>
    cases err with
    | none =>
      simp [finishLoop]
      split <;> simp
    | some m => simp [finishLoop]
  | seekAbort => simp [finishLoop]
  | fuelOut => simp [finishLoop]

/-- A loop entered with the pause flag already set exits at once with no
consumption, no dispatch, and no recorded error. -/
theorem whLoopCore_pause_exit (d : Dispatch) (busyAt : Nat → Bool)
    (fuel : Nat) (s : SDState) (carry : Str) (lines : List Str)
    (hp : s.mustPause = true) :
    whLoopCore d busyAt (fuel + 1) s carry lines
      = ⟨s, [], [], LoopEnding.normal none⟩ := by
  simp only [whLoopCore]
  simp [loopIter, hp]

/-- At end of file the loop closes the session and exits successfully,
discarding whatever partial input was carried. -/
theorem loopIter_eof (d : Dispatch) (b : Bool) (s : SDState) (f : FileH)
    (carry : Str) (hp : s.mustPause = false) (hf : s.curFile = some f)
    (hlen : f.content.length ≤ f.pos) :
    loopIter d b s carry [] = IterOut.halt { s with curFile := none } none none := by
  unfold loopIter
  simp [hp, hf, List.drop_eq_nil_of_le hlen]

/-- With an open session and a non-negative position, `work_handler` is
the epilogue applied to the loop run started at the sought handle. -/
theorem workHandler_run (d : Dispatch) (busyAt : Nat → Bool) (fuel : Nat)
    (s : SDState) (f : FileH) (hf : s.curFile = some f)
    (hpos : ¬ s.filePos < 0) :
    workHandler d busyAt fuel s
      = finishLoop (whLoopCore d busyAt fuel
          { s with curFile := some ⟨f.content, s.filePos.toNat⟩ } [] []) := by
  unfold workHandler
  simp only [hf]
  rw [if_neg hpos]

/-- C3: before each dispatch the published expected next position is the
current position plus the line length plus one; if the dispatched command
left it unchanged the stored position advances to it with the buffers
kept, and if the command moved it (to a valid offset) the stored position
becomes the new value, the handle is sought there, and the line buffer
and the carried partial input are both discarded. -/
theorem c3_position_protocol :
    ∀ (d : Dispatch) (s s4 : SDState) (l0 carry line : Str)
      (rest0 : List Str),
      s.mustPause = false →
      lastLine (l0 :: rest0) = line →
      gateOpen (updatePart s.currentPart line) s.suppressed = true →
      d (dispatchCallState s line) line = (DOutcome.ok, s4) →
      (dispatchCallState s line).nextFilePos
          = s.filePos + (line.length : Int) + 1
      ∧ (s4.nextFilePos = s.filePos + (line.length : Int) + 1 →
          loopIter d false s carry (l0 :: rest0)
            = IterOut.next
                { s4 with cmdFromSd := false, filePos := s4.nextFilePos }
                carry ((l0 :: rest0).dropLast) (some line) (some line))
      ∧ (∀ f : FileH, s4.nextFilePos ≠ s.filePos + (line.length : Int) + 1 →
          0 ≤ s4.nextFilePos → s4.curFile = some f →
          loopIter d false s carry (l0 :: rest0)
            = IterOut.next
                { s4 with cmdFromSd := false, filePos := s4.nextFilePos,
                          curFile := some ⟨f.content, s4.nextFilePos.toNat⟩ }
                [] [] (some line) (some line)) := by
  intro d s s4 l0 carry line rest0 hp hl hg hd
  refine ⟨by simp [dispatchCallState], ?_, ?_⟩
  · intro hnm
    rw [loopIter_dispatch_ok d s s4 l0 rest0 carry line hp hl hg hd]
    exact afterDispatch_eq _ _ _ _ _ _ hnm
  · intro f hne h0 hf
    rw [loopIter_dispatch_ok d s s4 l0 rest0 carry line hp hl hg hd]
    exact afterDispatch_jump _ _ _ _ _ _ f hne h0 hf

/-- C3 witness: Scenario B — at position 40 a dispatched line performs
`set_file_position(10)`; the loop stores position 10, seeks the handle
there, and clears both buffers. -/
theorem c3_witness :
    (10 : Int) ≠ c3Start.filePos + ((str "G1 X0").length : Int) + 1 ∧
    loopIter jump10 false c3Start [] [str "G1 X0"]
      = IterOut.next
          { c3Start with curFile := some ⟨str "0123456789abcdef", 10⟩,
                         filePos := 10, nextFilePos := 10 }
          [] [] (some (str "G1 X0")) (some (str "G1 X0")) :=
  ⟨by decide,
   (c3_position_protocol jump10 c3Start
      { dispatchCallState c3Start (str "G1 X0") with nextFilePos := 10 }
      (str "G1 X0") [] (str "G1 X0") [] rfl rfl (by decide) rfl).2.2
      ⟨str "0123456789abcdef", 40⟩ (by decide) (by decide) rfl⟩

/-- C6 counterexample: a run in which a dispatched command jumps the
stream to a negative offset exits through the mid-loop seek failure after
the initial seek succeeded: the active-loop marker is cleared but no
`print_stats` notification at all is published, contradicting "never zero
notifications". -/
theorem c6_counterexample :
    scenarioNegRun.ending = WHEnding.ran LoopEnding.seekAbort ∧
    scenarioNegRun.note = none ∧ scenarioNegRun.s.workTimer = false ∧
    scenarioNegRun.s.cmdFromSd = false := by decide

/-- C6 (amended): on every exit of the work loop other than the mid-loop
reseek failure the active-loop marker and the stream-origin marker are
cleared and exactly one notification is published — error when an error
message was recorded, else paused when the session is still open, else
complete; the mid-loop reseek-failure exit clears both markers but
publishes no notification. -/
theorem c6_exit_notes :
    ∀ (d : Dispatch) (busyAt : Nat → Bool) (fuel : Nat) (s : SDState)
      (f : FileH), s.curFile = some f → ¬ s.filePos < 0 →
      (∀ m, (workHandler d busyAt fuel s).ending
            = WHEnding.ran (LoopEnding.normal (some m)) →
          (workHandler d busyAt fuel s).note = some (StatsNote.error m)
          ∧ (workHandler d busyAt fuel s).s.workTimer = false
          ∧ (workHandler d busyAt fuel s).s.cmdFromSd = false)
      ∧ ((workHandler d busyAt fuel s).ending
            = WHEnding.ran (LoopEnding.normal none) →
          (workHandler d busyAt fuel s).note
            = some (if ((workHandler d busyAt fuel s).s.curFile).isSome then
                StatsNote.paused else StatsNote.complete)
          ∧ (workHandler d busyAt fuel s).s.workTimer = false
          ∧ (workHandler d busyAt fuel s).s.cmdFromSd = false)
      ∧ ((workHandler d busyAt fuel s).ending
            = WHEnding.ran LoopEnding.seekAbort →
          (workHandler d busyAt fuel s).note = none
          ∧ (workHandler d busyAt fuel s).s.workTimer = false
          ∧ (workHandler d busyAt fuel s).s.cmdFromSd = false) := by
  intro d busyAt fuel s f hf hpos
  rw [workHandler_run d busyAt fuel s f hf hpos]
  obtain ⟨F1, F2, F3, F4, F5, F6, F7, F8, F9⟩ :=
    finishLoop_spec (whLoopCore d busyAt fuel
      { s with curFile := some ⟨f.content, s.filePos.toNat⟩ } [] [])
  have SA := whLoopCore_seekAbort_flags d busyAt fuel
    { s with curFile := some ⟨f.content, s.filePos.toNat⟩ } [] []
  refine ⟨?_, ?_, ?_⟩
  · intro m h
    rw [F5] at h
    simp only [WHEnding.ran.injEq] at h
    exact ⟨F1 m h, F3 (some m) h⟩
  · intro h
    rw [F5] at h
    simp only [WHEnding.ran.injEq] at h
    rw [F9]
    exact ⟨F2 h, F3 none h⟩
  · intro h
    rw [F5] at h
    simp only [WHEnding.ran.injEq] at h
    obtain ⟨hn, hs⟩ := F4 h
    obtain ⟨hw, hc⟩ := SA h
    rw [hs]
    exact ⟨hn, hw, hc⟩

/-- C6 witness: the unterminated-final-line run exits normally with no
error recorded and a closed session, so exactly one notification — the
completion — is published and both markers are cleared. -/
theorem c6_witness :
    (workHandler okDispatch quietBusy 16 c10State).note
      = some (if ((workHandler okDispatch quietBusy 16 c10State).s.curFile).isSome
          then StatsNote.paused else StatsNote.complete)
    ∧ (workHandler okDispatch quietBusy 16 c10State).s.workTimer = false
    ∧ (workHandler okDispatch quietBusy 16 c10State).s.cmdFromSd = false :=
  (c6_exit_notes okDispatch quietBusy 16 c10State ⟨str "G1 X0\nM114", 0⟩
    rfl (by decide)).2.1 (by decide)

/-- C8 counterexample: in Scenario A the reported position after the run
(57, all four consumed lines with their delimiters) differs from the sum
of `len(line) + 1` over the dispatched lines (31): suppressed lines
advance the position without reaching the backend. -/
theorem c8_counterexample :
    (get_status scenarioARun.s).filePosition ≠ sumLen1 scenarioARun.sent ∧
    scenarioARun.took.length = 4 := by decide

/-- C8 (amended): for a run with no in-stream jumps, no dispatch
failures, a backend that does not alter the suppression list, and nothing
suppressed, the position reported via status equals the starting position
plus the sum of `len(line) + 1` over the dispatched lines (with
suppression, the sum is over all consumed lines instead). -/
theorem c8_position_roundtrip :
    ∀ (d : Dispatch) (busyAt : Nat → Bool) (fuel : Nat) (s : SDState)
      (f : FileH),
      NoJump d → NoFail d → PreservesSup d → s.suppressed = [] →
      s.curFile = some f → ¬ s.filePos < 0 →
      (get_status (workHandler d busyAt fuel s).s).filePosition
        = s.filePos + sumLen1 (workHandler d busyAt fuel s).sent := by
  intro d busyAt fuel s f hnj hnf hps hsup hf hpos
  rw [workHandler_run d busyAt fuel s f hf hpos]
  obtain ⟨F1, F2, F3, F4, F5, F6, F7, F8, F9⟩ :=
    finishLoop_spec (whLoopCore d busyAt fuel
      { s with curFile := some ⟨f.content, s.filePos.toNat⟩ } [] [])
  obtain ⟨W1, W2, W3⟩ := whLoopCore_inv d busyAt hnj hnf hps fuel
    { s with curFile := some ⟨f.content, s.filePos.toNat⟩ } [] []
  have hsup1 : ({ s with curFile := some ⟨f.content, s.filePos.toNat⟩ }
      : SDState).suppressed = [] := by simp [hsup]
  simp only [get_status]
  rw [F8, F6, W1, W3 hsup1]

/-- C8 witness: the round-trip equation holds on a concrete two-line
session under the plain backend. -/
theorem c8_witness :
    NoJump okDispatch ∧ NoFail okDispatch ∧ PreservesSup okDispatch ∧
    (get_status (workHandler okDispatch quietBusy 8 c8State).s).filePosition
      = c8State.filePos + sumLen1 (workHandler okDispatch quietBusy 8 c8State).sent :=
  ⟨fun _ _ => rfl, fun _ _ => rfl, fun _ _ => rfl,
   c8_position_roundtrip okDispatch quietBusy 8 c8State ⟨str "A\nBB\n", 0⟩
     (fun _ _ => rfl) (fun _ _ => rfl) (fun _ _ => rfl) rfl rfl (by decide)⟩

/-- C9: `do_pause` in the idle state (no session, no timer) mutates
nothing; with an active loop it sets the pause flag; called re-entrantly
from within a dispatched command (the stream-origin marker set) its
busy-wait condition is false at once, so it returns without waiting —
no deadlock; a dispatched command that sets the pause flag still has its
own line completed (position advanced, line recorded), and the loop then
exits at the next iteration check without consuming anything further. -/
theorem c9_pause_semantics :
    (∀ s : SDState, s.curFile = none → s.workTimer = false → doPauseT s = s)
    ∧ (∀ s : SDState, s.workTimer = true → (doPauseT s).mustPause = true)
    ∧ (∀ s : SDState, s.cmdFromSd = true → pauseWaitCond (doPauseT s) = false)
    ∧ (∀ (d : Dispatch) (busyAt : Nat → Bool) (fuel : Nat) (s : SDState)
        (carry : Str) (lines : List Str), s.mustPause = true →
        whLoopCore d busyAt (fuel + 1) s carry lines
          = ⟨s, [], [], LoopEnding.normal none⟩)
    ∧ (∀ (d : Dispatch) (s s4 : SDState) (l0 carry line : Str)
        (rest0 : List Str),
        s.mustPause = false → lastLine (l0 :: rest0) = line →
        gateOpen (updatePart s.currentPart line) s.suppressed = true →
        d (dispatchCallState s line) line = (DOutcome.ok, s4) →
        s4.nextFilePos = s.filePos + (line.length : Int) + 1 →
        s4.mustPause = true →
        loopIter d false s carry (l0 :: rest0)
          = IterOut.next
              { s4 with cmdFromSd := false, filePos := s4.nextFilePos }
              carry ((l0 :: rest0).dropLast) (some line) (some line)
        ∧ ({ s4 with cmdFromSd := false,
                     filePos := s4.nextFilePos } : SDState).mustPause = true) := by
  refine ⟨?_, ?_, ?_, ?_, ?_⟩
  · intro s _ h2
    simp [doPauseT, h2]
  · intro s h
    simp [doPauseT, h]
  · intro s h
    cases hw : s.workTimer <;> simp [doPauseT, pauseWaitCond, h, hw]
  · exact fun d busyAt fuel s carry lines hp =>
      whLoopCore_pause_exit d busyAt fuel s carry lines hp
  · intro d s s4 l0 carry line rest0 hp hl hg hd hnm hmp
    refine ⟨?_, by simp [hmp]⟩
    rw [loopIter_dispatch_ok d s s4 l0 rest0 carry line hp hl hg hd]
    exact afterDispatch_eq _ _ _ _ _ _ hnm

/-- C9 witness: the pause behaviors at concrete inputs, including a line
whose dispatch performs a re-entrant `do_pause` (so the wait condition is
false immediately) followed by the loop exiting with the line completed. -/
theorem c9_witness :
    doPauseT initState = initState ∧
    (doPauseT { initState with workTimer := true }).mustPause = true ∧
    pauseWaitCond (doPauseT { initState with workTimer := true,
                                             cmdFromSd := true }) = false ∧
    whLoopCore okDispatch quietBusy 3 { initState with mustPause := true }
        [] [str "G1 X1"]
      = ⟨{ initState with mustPause := true }, [], [], LoopEnding.normal none⟩ ∧
    loopIter pauseDispatch false
        { initState with curFile := some ⟨str "G1 X0\nG1 X1\n", 12⟩,
                         filePos := 6, fileSize := 12, workTimer := true }
        [] [str "G1 X1"]
      = IterOut.next
          { initState with curFile := some ⟨str "G1 X0\nG1 X1\n", 12⟩,
                           filePos := 12, fileSize := 12, workTimer := true,
                           nextFilePos := 12, mustPause := true }
          [] [] (some (str "G1 X1")) (some (str "G1 X1")) :=
  ⟨c9_pause_semantics.1 initState rfl rfl,
   c9_pause_semantics.2.1 _ rfl,
   c9_pause_semantics.2.2.1 _ rfl,
   c9_pause_semantics.2.2.2.1 okDispatch quietBusy 2 _ [] [str "G1 X1"] rfl,
   ((c9_pause_semantics.2.2.2.2 pauseDispatch
      { initState with curFile := some ⟨str "G1 X0\nG1 X1\n", 12⟩,
                       filePos := 6, fileSize := 12, workTimer := true }
      { dispatchCallState
          { initState with curFile := some ⟨str "G1 X0\nG1 X1\n", 12⟩,
                           filePos := 6, fileSize := 12, workTimer := true }
          (str "G1 X1") with mustPause := true }
      (str "G1 X1") [] (str "G1 X1") [] rfl rfl (by decide) rfl
      (by decide) rfl).1)⟩

/-- C10: on the empty read at end of file the work loop closes the
session and exits successfully regardless of the carried partial input,
so a final line with no terminating newline is silently dropped; in the
concrete run over `"G1 X0\nM114"` only `G1 X0` is consumed and
dispatched, the session is closed, and completion is reported. -/
theorem c10_tail_dropped :
    (∀ (d : Dispatch) (b : Bool) (s : SDState) (f : FileH) (carry : Str),
       s.mustPause = false → s.curFile = some f →
       f.content.length ≤ f.pos →
       loopIter d b s carry []
         = IterOut.halt { s with curFile := none } none none)
    ∧ c10Run.sent = [str "G1 X0"] ∧ c10Run.took = [str "G1 X0"]
    ∧ c10Run.s.curFile = none ∧ c10Run.note = some StatsNote.complete :=
  ⟨fun d b s f carry hp hf hlen => loopIter_eof d b s f carry hp hf hlen,
   by decide, by decide, by decide, by decide⟩

/-- C10 witness: the end-of-file iteration at a concrete state carrying
the unterminated tail `M114` closes the session and drops the carry. -/
theorem c10_witness :
    loopIter okDispatch false
        { initState with curFile := some ⟨str "G1 X0\nM114", 10⟩,
                         workTimer := true }
        (str "M114") []
      = IterOut.halt
          { initState with curFile := none, workTimer := true } none none :=
  c10_tail_dropped.1 okDispatch false
    { initState with curFile := some ⟨str "G1 X0\nM114", 10⟩,
                     workTimer := true }
    ⟨str "G1 X0\nM114", 10⟩ (str "M114") rfl rfl (by decide)

end VirtualSD
